import Mathlib

/-!
Verification of the pos-backend core against its specification.

The development shallowly embeds the Python source of the repository:

* `src/sales/tax_utils.py` — GST computation (`calculate_item_tax` and the
  static-table fallbacks);
* `src/sales/utils.py` — sequential bill numbering (`generate_bill_number`);
* `src/auth_app/serializers.py` / `src/auth_app/views.py` — the
  numbering-configuration PATCH of the vendor profile;
* `src/items/views.py` — the item/category batch sync endpoints with
  last-write-wins (LWW) reconciliation;
* `src/sales/views.py` — the bill backup/sync ingest endpoint and the
  bill-creation endpoint.

Modelling conventions, used throughout:

* Python `decimal.Decimal` values are modelled as exact rationals (`ℚ`).
  Every arithmetic step taken by the embedded code paths is exact well within
  the default 28-significant-digit Decimal context, so exact rational
  arithmetic is faithful.  `Decimal.quantize` at two decimal places uses the
  default rounding mode of the context, which is ROUND_HALF_EVEN.
* Python `None` becomes `Option.none`; `dict.get(k, d)` becomes
  `Option.getD`.  Python truthiness of optional strings ("" and `None` are
  falsy) is modelled explicitly.
* Django `DateTimeField` timestamps are modelled as integers (`ℤ`);
  comparisons in the source are plain datetime comparisons.  A client
  timestamp that is absent, or fails to parse, is `none` (the source
  swallows the parse error and proceeds identically in both cases).
* Database rows scoped to one vendor are modelled as a `List` of records;
  every record in a state belongs to the single vendor under consideration,
  matching the `vendor=vendor` filter applied by every query on these paths.
* DRF serializers are given well-typed input; the only serializer-level
  checks modelled are the numeric bounds the models declare
  (`MinValueValidator(0)`, `min_value=1`), which are the checks the claims
  touch.  Malformed (ill-typed) payloads are outside the model.
-/

namespace PosBackend

/-! ### Decimal arithmetic

`Decimal.quantize` to two decimal places under the default Python context rounds
half-to-even.  `roundHalfEvenZ` rounds a rational to the nearest integer with
ties to the even integer; `quantize2` rounds to two decimal places. -/

/-- Round to the nearest integer, ties to the even integer
(Python Decimal ROUND_HALF_EVEN, the default context rounding). -/
def roundHalfEvenZ (x : ℚ) : ℤ :=
  if x - ⌊x⌋ < 1/2 then ⌊x⌋
  else if 1/2 < x - ⌊x⌋ then ⌊x⌋ + 1
  else if ⌊x⌋ % 2 = 0 then ⌊x⌋ else ⌊x⌋ + 1

/-- Embeds `Decimal.quantize` to two decimal places with the default
(half-even) rounding. -/
def quantize2 (x : ℚ) : ℚ := (roundHalfEvenZ (100 * x) : ℚ) / 100

/-- Round to the nearest integer, ties away from zero upward — "standard
half-up rounding" in the words of the specification.  Defined only to compare
that rounding mode with the `quantize2` of the source. -/
def roundHalfUpZ (x : ℚ) : ℤ := ⌊x + 1/2⌋

/-- Half-up rounding to two decimal places, as the specification words it. -/
def quantize2HalfUp (x : ℚ) : ℚ := (roundHalfUpZ (100 * x) : ℚ) / 100

/-! ### Python string helpers -/

/-- Python `str.strip()`: drop leading and trailing whitespace. -/
def pyStrip (s : String) : String :=
  ⟨((s.data.dropWhile Char.isWhitespace).reverse.dropWhile Char.isWhitespace).reverse⟩

/-- Python `str.upper()` (ASCII range, which is all the source uses). -/
def pyUpper (s : String) : String := ⟨s.data.map Char.toUpper⟩

/-- Python truthiness of an optional string: `None` and `""` are falsy. -/
def strTruthy : Option String → Bool
  | none => false
  | some s => if s = "" then false else true

/-! ### TaxEngine — `src/sales/tax_utils.py`

The static SAC→GST table (`sac_to_gst_mapping.json`, loaded once at first
use) is a parameter of the embedding: one entry may carry a `default` key
and/or a `gst_percentage` key. -/

/-- One entry of the static SAC→GST mapping.  The source reads the key
`default`, falling back to `gst_percentage`, then to 0
(src/sales/tax_utils.py line 75). -/
structure SacEntry where
  defaultRate : Option ℚ
  gstPercentage : Option ℚ
deriving DecidableEq

/-- Embeds the entry lookup
`mapping[sac_str].get("default", mapping[sac_str].get("gst_percentage", 0))`. -/
def sacEntryRate (e : SacEntry) : ℚ :=
  match e.defaultRate with
  | some r => r
  | none =>
    match e.gstPercentage with
    | some r => r
    | none => 0

/-- Embeds `get_default_gst_from_sac` (src/sales/tax_utils.py lines 58-78):
falsy code yields 0; otherwise the stripped code is looked up in the static
table, absent codes yielding 0. -/
def get_default_gst_from_sac (table : String → Option SacEntry)
    (sac_code : Option String) : ℚ :=
  match sac_code with
  | none => 0
  | some s =>
    if s = "" then 0
    else
      match table (pyStrip s) with
      | some e => sacEntryRate e
      | none => 0

/-- Embeds `get_default_gst_from_hn` (src/sales/tax_utils.py lines 37-56).
The parameter of the function is named `hn_code`, but its body refers throughout to
the undefined name `hsn_code` (lines 47, 51, 53); no global of that name
exists, so every call raises `NameError` at its first statement, before any
table lookup can happen.  The embedding therefore returns that error
unconditionally. -/
def get_default_gst_from_hn (hn_code : Option String) : Except String ℚ :=
  Except.error "NameError: name hsn_code is not defined"

/-- Embeds `calculate_item_tax` (src/sales/tax_utils.py lines 80-118).
Resolution order of the effective rate, first match wins: a truthy vendor SAC
code (explicit `sac_gst_percentage`, else the static-table default); else a
truthy item HSN code (explicit `hsn_gst_percentage`, else the HSN default
lookup — which raises, see `get_default_gst_from_hn`); else 0.  The tax is
`(item_subtotal * rate / 100).quantize` to two decimal places. -/
def calculate_item_tax (table : String → Option SacEntry) (item_subtotal : ℚ)
    (hsn_code : Option String) (hsn_gst_percentage : Option ℚ)
    (sac_code : Option String) (sac_gst_percentage : Option ℚ) :
    Except String (ℚ × ℚ) :=
  let rate : Except String ℚ :=
    if strTruthy sac_code then
      match sac_gst_percentage with
      | some r => Except.ok r
      | none => Except.ok (get_default_gst_from_sac table sac_code)
    else if strTruthy hsn_code then
      match hsn_gst_percentage with
      | some r => Except.ok r
      | none => get_default_gst_from_hn hsn_code
    else Except.ok 0
  match rate with
  | Except.error e => Except.error e
  | Except.ok gst_percentage =>
    Except.ok (quantize2 (item_subtotal * gst_percentage / 100), gst_percentage)

/-! ### SequenceGenerator — `src/sales/utils.py` -/

/-- The vendor fields the numbering and configuration paths touch.
`bill_pfx` embeds the source field `bill_prefix` (CharField, null/blank
modelled as `""`); `bill_starting_number` defaults to 1 and
`last_bill_number` to 0 (migration 0009). -/
structure Vendor where
  bill_pfx : String
  bill_starting_number : ℤ
  last_bill_number : ℤ
deriving DecidableEq

/-- Embeds `(vendor.bill_prefix or "INV").strip().upper()`. -/
def normPfx (p : String) : String :=
  pyUpper (pyStrip (if p = "" then "INV" else p))

/-- Decimal digits of a natural number. -/
def natDigits (n : ℕ) : List Char := Nat.toDigits 10 n

/-- Left-pad a string with zeros to the given width. -/
def padZeros (w : ℕ) (s : String) : String :=
  if s.length < w then ⟨List.replicate (w - s.length) '0' ++ s.data⟩ else s

/-- Python `f"{n:04d}"`: zero-pad to width 4, the sign counting toward the
width. -/
def pad4 (n : ℤ) : String :=
  if n < 0 then "-" ++ padZeros 3 ⟨natDigits n.natAbs⟩
  else padZeros 4 ⟨natDigits n.natAbs⟩

/-- Embeds `generate_bill_number` (src/sales/utils.py lines 9-47), run inside
`transaction.atomic` after re-reading the vendor row.  The current date string
is a parameter.  Returns the invoice number, the bill number, and the updated
vendor counter state. -/
def generate_bill_number (vendor : Vendor) (date_str : String) :
    String × String × Vendor :=
  let pfx := normPfx vendor.bill_pfx
  let seeded :=
    if vendor.last_bill_number = 0 ∧ vendor.bill_starting_number > 0 then
      vendor.bill_starting_number - 1
    else vendor.last_bill_number
  let n := seeded + 1
  let invoice_number := pfx ++ "-" ++ date_str ++ "-" ++ pad4 n
  let bill_number := pfx ++ "-" ++ pad4 n
  (invoice_number, bill_number, { vendor with last_bill_number := n })

/-! ### Numbering configuration PATCH — `src/auth_app/serializers.py` -/

/-- A PATCH /auth/profile body restricted to the numbering fields; an absent
field is left unchanged (`partial=True`). -/
structure VendorPatchRequest where
  bill_pfx : Option String
  bill_starting_number : Option ℤ
deriving DecidableEq

/-- Outcome of the profile PATCH: HTTP 200 with the updated vendor, or
HTTP 400 with serializer errors. -/
inductive PatchResult
  | ok (vendor : Vendor)
  | invalid (msg : String)
deriving DecidableEq

/-- Embeds PATCH /auth/profile (the `profile` view, src/auth_app/views.py
lines 303-307) restricted to the numbering fields.  `VendorProfileSerializer`
(src/auth_app/serializers.py lines 222-263) declares `bill_starting_number`
as `IntegerField(required=False, min_value=1)` and performs no further
validation on it; in particular the serializer never queries the bills of
the vendor.  The `billCount` argument records how many bills currently exist for
the vendor; the source never reads it on this path. -/
def vendorProfilePatch (billCount : ℕ) (vendor : Vendor)
    (req : VendorPatchRequest) : PatchResult :=
  match req.bill_starting_number with
  | some n =>
    if n < 1 then
      PatchResult.invalid "Ensure this value is greater than or equal to 1."
    else
      PatchResult.ok { vendor with
        bill_pfx := req.bill_pfx.getD vendor.bill_pfx,
        bill_starting_number := n }
  | none =>
    PatchResult.ok { vendor with bill_pfx := req.bill_pfx.getD vendor.bill_pfx }

/-! ### SyncReconciler — `src/items/views.py`

Batch sync of catalog entities for one vendor.  `ItemSyncView.post`
(lines 457-635) and `CategorySyncView.post` (lines 327-440) run the same
loop: every operation is handled independently inside a try/except; each
recognised operation appends exactly one entry either to the success list or
to the error list, and the response is
`{"synced": len(success_list), ...: success_list, "errors": error_list}`
with HTTP 200. -/

/-- Entity ids (UUIDs in the source). -/
abbrev EntityId := ℕ

/-- Timestamps (timezone-aware datetimes in the source). -/
abbrev Time := ℤ

/-- An Item row of the vendor (the fields the sync path reads or writes).
`last_updated` is the server-side `auto_now` timestamp used for LWW. -/
structure Item where
  id : EntityId
  name : String
  price : ℚ
  is_active : Bool
  categories : List EntityId
  last_updated : Time
deriving DecidableEq

/-- The payload (`data`) of an item sync operation; absent fields are `none`.
`category_ids` models `data.get("category_ids", data.get("categories", []))`;
the empty list is falsy and skips category validation entirely. -/
structure ItemPayload where
  name : Option String
  price : Option ℚ
  is_active : Option Bool
  category_ids : List EntityId
deriving DecidableEq

/-- Embeds `op.get("operation", "create")`; the source handles "delete" in
one branch and "update" or "create" together in a second branch. -/
inductive SyncOpType
  | create
  | update
  | delete
deriving DecidableEq

/-- One incoming sync operation.  `id` is
`data.get("id") or op.get("id")`; `timestamp` is the parsed client timestamp,
`none` when absent or unparseable (the source swallows the parse error and
proceeds identically in both cases). -/
structure SyncOp where
  operation : SyncOpType
  id : Option EntityId
  data : ItemPayload
  timestamp : Option Time
deriving DecidableEq

/-- An entry of the success list: a serialized entity, or the
`{"id": ..., "operation": "delete", "status": "success"}` acknowledgement. -/
inductive SyncEntry
  | itemRepr (item : Item)
  | deleteAck (id : EntityId)
deriving DecidableEq

/-- An entry of the error list.  `notFound i` embeds
`{"id": i, "operation": "delete", "error": "Item not found"}` (respectively
"Category not found" on the category endpoint); `idRequired` the missing-id
delete error; `categoryInvalid` the
"One or more categories not found or do not belong to vendor" error. -/
inductive SyncError
  | notFound (id : EntityId)
  | idRequired
  | categoryInvalid (id : Option EntityId)
deriving DecidableEq

/-- Embeds `Item.objects.get(id=i, vendor=vendor)` over the rows of the
vendor. -/
def findItem (st : List Item) (i : EntityId) : Option Item :=
  st.find? (fun it => it.id == i)

/-- Embeds `item.delete()`. -/
def removeItem (st : List Item) (i : EntityId) : List Item :=
  st.filter (fun it => !(it.id == i))

/-- Embeds `item.save()` of an updated row, keyed on the primary key. -/
def replaceItem (st : List Item) (updated : Item) : List Item :=
  st.map (fun it => if it.id == updated.id then updated else it)

/-- A fresh generated id (UUID generation in the source). -/
def freshId (ids : List EntityId) : EntityId := ids.foldr max 0 + 1

/-- Embeds `ItemSerializer(item, data=item_data, partial=True).save()`: provided
fields overwrite, absent fields are kept, and `auto_now` stamps
`last_updated` with the server time. -/
def applyItemPayload (it : Item) (p : ItemPayload) (now : Time) : Item :=
  { it with
    name := p.name.getD it.name
    price := p.price.getD it.price
    is_active := p.is_active.getD it.is_active
    last_updated := now }

/-- A freshly created Item row: model defaults for absent payload fields
(`is_active` defaults to True), `auto_now` stamping `last_updated`. -/
def mkItem (i : EntityId) (p : ItemPayload) (now : Time) : Item :=
  { id := i
    name := p.name.getD ""
    price := p.price.getD 0
    is_active := p.is_active.getD true
    categories := []
    last_updated := now }

/-- Embeds `Category.objects.filter(id__in=ids, vendor=vendor).filter(is_active=True)`:
the distinct listed ids that are active categories of this vendor.
`activeCats` is the set of active category ids of the vendor. -/
def validatedCategories (activeCats : EntityId → Bool) (ids : List EntityId) :
    List EntityId :=
  ids.dedup.filter activeCats

/-- Embeds `validated_categories.count() == len(category_ids)`. -/
def categoriesValid (activeCats : EntityId → Bool) (ids : List EntityId) : Bool :=
  (validatedCategories activeCats ids).length == ids.length

/-- One iteration of the `ItemSyncView.post` loop (src/items/views.py lines
468-629): the new vendor state, plus the single entry the operation appends
to the success list (`Sum.inl`) or to the error list (`Sum.inr`).
The LWW gate (lines 507-522) skips the update, returning the current
serialized item, exactly when `item.last_updated > client_time`. -/
def processItemOp (activeCats : EntityId → Bool) (now : Time) (st : List Item)
    (op : SyncOp) : List Item × (SyncEntry ⊕ SyncError) :=
  match op.operation with
  | SyncOpType.delete =>
    match op.id with
    | none => (st, Sum.inr SyncError.idRequired)
    | some i =>
      match findItem st i with
      | some _ => (removeItem st i, Sum.inl (SyncEntry.deleteAck i))
      | none => (st, Sum.inr (SyncError.notFound i))
  | _ =>
    match op.id with
    | some i =>
      match findItem st i with
      | some it =>
        let stale : Bool :=
          match op.timestamp with
          | some t => decide (t < it.last_updated)
          | none => false
        if stale then (st, Sum.inl (SyncEntry.itemRepr it))
        else if op.data.category_ids ≠ [] ∧
            categoriesValid activeCats op.data.category_ids = false then
          (st, Sum.inr (SyncError.categoryInvalid (some i)))
        else
          let updated :=
            { applyItemPayload it op.data now with
              categories :=
                if op.data.category_ids.isEmpty then it.categories
                else validatedCategories activeCats op.data.category_ids }
          (replaceItem st updated, Sum.inl (SyncEntry.itemRepr updated))
      | none =>
        if op.data.category_ids ≠ [] ∧
            categoriesValid activeCats op.data.category_ids = false then
          (st, Sum.inr (SyncError.categoryInvalid (some i)))
        else
          let created :=
            { mkItem i op.data now with
              categories := validatedCategories activeCats op.data.category_ids }
          (st ++ [created], Sum.inl (SyncEntry.itemRepr created))
    | none =>
      if op.data.category_ids ≠ [] ∧
          categoriesValid activeCats op.data.category_ids = false then
        (st, Sum.inr (SyncError.categoryInvalid none))
      else
        let created :=
          { mkItem (freshId (st.map Item.id)) op.data now with
            categories := validatedCategories activeCats op.data.category_ids }
        (st ++ [created], Sum.inl (SyncEntry.itemRepr created))

/-- The full loop: successive operations run against the successively updated
state; success entries and error entries are collected in order. -/
def processItemOps (activeCats : EntityId → Bool) (now : Time) (st : List Item) :
    List SyncOp → List Item × List SyncEntry × List SyncError
  | [] => (st, [], [])
  | op :: rest =>
    let step := processItemOp activeCats now st op
    let tail := processItemOps activeCats now step.1 rest
    match step.2 with
    | Sum.inl entry => (tail.1, entry :: tail.2.1, tail.2.2)
    | Sum.inr err => (tail.1, tail.2.1, err :: tail.2.2)

/-- The HTTP 200 response body of a batch sync:
`{"synced": len(success_list), ...: success_list, "errors": error_list}`. -/
structure SyncResponse (α : Type) where
  synced : ℕ
  results : List α
  errors : List SyncError
deriving DecidableEq

/-- Embeds `ItemSyncView.post`: final state plus response. -/
def itemSyncPost (activeCats : EntityId → Bool) (now : Time) (st : List Item)
    (ops : List SyncOp) : List Item × SyncResponse SyncEntry :=
  let r := processItemOps activeCats now st ops
  (r.1, { synced := r.2.1.length, results := r.2.1, errors := r.2.2 })

/-- A Category row of the vendor; `updated_at` is the `auto_now` timestamp
used for LWW. -/
structure Category where
  id : EntityId
  name : String
  is_active : Bool
  updated_at : Time
deriving DecidableEq

/-- The payload of a category sync operation. -/
structure CategoryPayload where
  name : Option String
  is_active : Option Bool
deriving DecidableEq

/-- One incoming category sync operation. -/
structure CatSyncOp where
  operation : SyncOpType
  id : Option EntityId
  data : CategoryPayload
  timestamp : Option Time
deriving DecidableEq

/-- Success-list entries of the category sync endpoint. -/
inductive CatSyncEntry
  | catRepr (cat : Category)
  | deleteAck (id : EntityId)
deriving DecidableEq

/-- Embeds `Category.objects.get(id=i, vendor=vendor)`. -/
def findCat (st : List Category) (i : EntityId) : Option Category :=
  st.find? (fun c => c.id == i)

/-- Embeds `CategorySerializer(category, data=..., partial=True).save()`. -/
def applyCatPayload (c : Category) (p : CategoryPayload) (now : Time) : Category :=
  { c with
    name := p.name.getD c.name
    is_active := p.is_active.getD c.is_active
    updated_at := now }

/-- A freshly created Category row. -/
def mkCat (i : EntityId) (p : CategoryPayload) (now : Time) : Category :=
  { id := i
    name := p.name.getD ""
    is_active := p.is_active.getD true
    updated_at := now }

/-- One iteration of the `CategorySyncView.post` loop (src/items/views.py
lines 338-434); same shape as `processItemOp` minus category-reference
validation.  The LWW gate (lines 377-392) skips exactly when
`category.updated_at > client_time`. -/
def processCatOp (now : Time) (st : List Category) (op : CatSyncOp) :
    List Category × (CatSyncEntry ⊕ SyncError) :=
  match op.operation with
  | SyncOpType.delete =>
    match op.id with
    | none => (st, Sum.inr SyncError.idRequired)
    | some i =>
      match findCat st i with
      | some _ =>
        (st.filter (fun c => !(c.id == i)), Sum.inl (CatSyncEntry.deleteAck i))
      | none => (st, Sum.inr (SyncError.notFound i))
  | _ =>
    match op.id with
    | some i =>
      match findCat st i with
      | some c =>
        let stale : Bool :=
          match op.timestamp with
          | some t => decide (t < c.updated_at)
          | none => false
        if stale then (st, Sum.inl (CatSyncEntry.catRepr c))
        else
          let updated := applyCatPayload c op.data now
          (st.map (fun x => if x.id == i then updated else x),
           Sum.inl (CatSyncEntry.catRepr updated))
      | none =>
        (st ++ [mkCat i op.data now], Sum.inl (CatSyncEntry.catRepr (mkCat i op.data now)))
    | none =>
      let c := mkCat (freshId (st.map Category.id)) op.data now
      (st ++ [c], Sum.inl (CatSyncEntry.catRepr c))

/-- The full category sync loop. -/
def processCatOps (now : Time) (st : List Category) :
    List CatSyncOp → List Category × List CatSyncEntry × List SyncError
  | [] => (st, [], [])
  | op :: rest =>
    let step := processCatOp now st op
    let tail := processCatOps now step.1 rest
    match step.2 with
    | Sum.inl entry => (tail.1, entry :: tail.2.1, tail.2.2)
    | Sum.inr err => (tail.1, tail.2.1, err :: tail.2.2)

/-- Embeds `CategorySyncView.post`: final state plus response. -/
def categorySyncPost (now : Time) (st : List Category) (ops : List CatSyncOp) :
    List Category × SyncResponse CatSyncEntry :=
  let r := processCatOps now st ops
  (r.1, { synced := r.2.1.length, results := r.2.1, errors := r.2.2 })

/-! ### BillIngestor — `src/sales/views.py`

Two entry paths: `SalesSyncView.post` (POST /backup/sync, lines 152-291)
ingests already-numbered bills pushed by offline devices, and
`BillListView.post` (POST /bills/, lines 370-478) creates new bills with a
server-generated number. -/

/-- A BillItem row (the fields these paths write). -/
structure BillLine where
  item_name : String
  price : ℚ
  mrp_price : ℚ
  quantity : ℚ
  subtotal : ℚ
  gst_percentage : ℚ
  item_gst_amount : ℚ
deriving DecidableEq

/-- A Bill row of the vendor, together with its BillItem rows (created
atomically with it; `lines` models the `items` related set). -/
structure Bill where
  invoice_number : String
  bill_number : String
  subtotal : ℚ
  total_amount : ℚ
  total_tax : ℚ
  cgst_amount : ℚ
  sgst_amount : ℚ
  igst_amount : ℚ
  lines : List BillLine
deriving DecidableEq

/-- One line of a synced bill payload; absent keys are `none`. -/
structure SyncLinePayload where
  name : Option String
  price : Option ℚ
  mrp_price : Option ℚ
  quantity : Option ℚ
  subtotal : Option ℚ
  gst_percentage : Option ℚ
  item_gst : Option ℚ
deriving DecidableEq

/-- A synced bill payload (`bill_data`); absent keys are `none`. -/
structure SyncBillPayload where
  invoice_number : Option String
  bill_number : Option String
  subtotal : Option ℚ
  total : Option ℚ
  total_tax : Option ℚ
  cgst : Option ℚ
  sgst : Option ℚ
  igst : Option ℚ
  items : List SyncLinePayload
deriving DecidableEq

/-- Embeds `BillItem.objects.create(...)` from a synced line
(src/sales/views.py lines 254-273), with the defaults the source supplies:
`subtotal` defaults to `quantity * price`. -/
def mkSyncLine (p : SyncLinePayload) : BillLine :=
  { item_name := p.name.getD "Unknown Item"
    price := p.price.getD 0
    mrp_price := p.mrp_price.getD (p.price.getD 0)
    quantity := p.quantity.getD 1
    subtotal := p.subtotal.getD (p.quantity.getD 1 * p.price.getD 0)
    gst_percentage := p.gst_percentage.getD 0
    item_gst_amount := p.item_gst.getD 0 }

/-- Embeds `Bill.objects.create(...)` plus its BillItem rows from a synced payload
(src/sales/views.py lines 207-273). -/
def mkSyncBill (inv : String) (p : SyncBillPayload) : Bill :=
  { invoice_number := inv
    bill_number := p.bill_number.getD ""
    subtotal := p.subtotal.getD 0
    total_amount := p.total.getD 0
    total_tax := p.total_tax.getD 0
    cgst_amount := p.cgst.getD 0
    sgst_amount := p.sgst.getD 0
    igst_amount := p.igst.getD 0
    lines := p.items.map mkSyncLine }

/-- Embeds `Bill.objects.filter(vendor=vendor, invoice_number=inv).first()`. -/
def findBill (st : List Bill) (inv : String) : Option Bill :=
  st.find? (fun b => b.invoice_number == inv)

/-- Per-bill outcome of the ingest loop: appended to `created_bills`
(serialized bill) or to `errors`. -/
inductive IngestOutcome
  | ok (b : Bill)
  | err (msg : String)
deriving DecidableEq

/-- One iteration of the `SalesSyncView.post` loop (src/sales/views.py lines
152-281): a falsy invoice number is an error; an existing
`(vendor, invoice_number)` bill is returned as-is with no writes; otherwise
the bill and its lines are created. -/
def ingestBill (st : List Bill) (p : SyncBillPayload) :
    List Bill × IngestOutcome :=
  match p.invoice_number with
  | none =>
    (st, IngestOutcome.err
      "invoice_number is required for syncing. Use POST /bills/ to create new bills.")
  | some inv =>
    if inv = "" then
      (st, IngestOutcome.err
        "invoice_number is required for syncing. Use POST /bills/ to create new bills.")
    else
      match findBill st inv with
      | some existing => (st, IngestOutcome.ok existing)
      | none => (st ++ [mkSyncBill inv p], IngestOutcome.ok (mkSyncBill inv p))

/-- The full ingest loop over a batch of payloads; the response body is
`{"synced": len(created_bills), "bills": created_bills, "errors": errors}`. -/
def salesSyncPost (st : List Bill) :
    List SyncBillPayload → List Bill × List Bill × List String
  | [] => (st, [], [])
  | p :: rest =>
    let step := ingestBill st p
    let tail := salesSyncPost step.1 rest
    match step.2 with
    | IngestOutcome.ok b => (tail.1, b :: tail.2.1, tail.2.2)
    | IngestOutcome.err m => (tail.1, tail.2.1, m :: tail.2.2)

/-- One line of a POST /bills/ request (`items_data`, validated by
`BillItemSerializer`): `item_name`, `price`, `mrp_price`, `quantity` and
`subtotal` are required fields; the GST fields default to 0. -/
structure CreateLineRequest where
  item_name : String
  price : ℚ
  mrp_price : ℚ
  quantity : ℚ
  subtotal : ℚ
  gst_percentage : Option ℚ
  item_gst_amount : Option ℚ
deriving DecidableEq

/-- A POST /bills/ request body (the fields this path reads, plus the
`invoice_number` a client may attempt to supply). -/
structure CreateBillRequest where
  invoice_number : Option String
  subtotal : Option ℚ
  total : Option ℚ
  total_tax : Option ℚ
  cgst : Option ℚ
  sgst : Option ℚ
  igst : Option ℚ
  items_data : List CreateLineRequest
deriving DecidableEq

/-- The `MinValueValidator(0)` bounds `BillItemSerializer` enforces on a
line. -/
def validCreateLine (r : CreateLineRequest) : Bool :=
  decide (0 ≤ r.price) && decide (0 ≤ r.mrp_price) && decide (0 ≤ r.quantity) &&
  decide (0 ≤ r.subtotal) &&
  (match r.gst_percentage with
   | some g => decide (0 ≤ g)
   | none => true) &&
  (match r.item_gst_amount with
   | some a => decide (0 ≤ a)
   | none => true)

/-- The `MinValueValidator(0)` bounds `BillSerializer.is_valid()` enforces on
the financial fields of the bill. -/
def validCreateBill (req : CreateBillRequest) : Bool :=
  req.items_data.all validCreateLine &&
  decide (0 ≤ req.subtotal.getD 0) && decide (0 ≤ req.total.getD 0) &&
  decide (0 ≤ req.total_tax.getD 0) && decide (0 ≤ req.cgst.getD 0) &&
  decide (0 ≤ req.sgst.getD 0) && decide (0 ≤ req.igst.getD 0)

/-- Embeds `BillItem.objects.create(bill=bill, **item_data)` for a validated
`items_data` entry: the GST fields take the model defaults (0) when absent;
everything else is stored verbatim. -/
def mkCreateLine (r : CreateLineRequest) : BillLine :=
  { item_name := r.item_name
    price := r.price
    mrp_price := r.mrp_price
    quantity := r.quantity
    subtotal := r.subtotal
    gst_percentage := r.gst_percentage.getD 0
    item_gst_amount := r.item_gst_amount.getD 0 }

/-- Embeds `Bill.objects.create(**kwargs)` at the database level.  The
`Bill.vendor` foreign key is non-nullable (src/sales/models.py line 25), so
an insert whose kwargs carry no vendor raises IntegrityError and stores
nothing; with a vendor the row is stored.  The backup/sync path passes
`vendor=vendor` explicitly (src/sales/views.py line 208);
`BillSerializer.create` does not (src/sales/serializers.py line 54). -/
def billInsert (vendor : Option EntityId) (row : Bill) : Except String Bill :=
  match vendor with
  | some _ => Except.ok row
  | none =>
    Except.error "IntegrityError: NOT NULL constraint failed: sales_bill.vendor_id"

/-- The row `BillSerializer.create` hands to `Bill.objects.create` on
POST /bills/ (src/sales/serializers.py lines 51-60): numbering from the
generator, every financial field verbatim from the request (absent ones 0),
lines from `items_data`.  `BillSerializer` lists `vendor` among its
`read_only_fields` (src/sales/serializers.py line 45), so DRF has dropped it
from `validated_data` and the row reaches the insert without a vendor. -/
def assembledBill (v : Vendor) (date_str : String) (req : CreateBillRequest) :
    Bill :=
  { invoice_number := (generate_bill_number v date_str).1
    bill_number := (generate_bill_number v date_str).2.1
    subtotal := req.subtotal.getD 0
    total_amount := req.total.getD 0
    total_tax := req.total_tax.getD 0
    cgst_amount := req.cgst.getD 0
    sgst_amount := req.sgst.getD 0
    igst_amount := req.igst.getD 0
    lines := req.items_data.map mkCreateLine }

/-- Embeds `BillListView.post` (src/sales/views.py lines 370-478).  The
vendor sequence is advanced and committed first (line 421, before serializer
validation); the `invoice_number` key of the request is never read on this
path.  A request failing the serializer bounds gets the HTTP 400 validation
response; a validation-passing request reaches `serializer.save()`, called
bare — unlike the sync views, which call `serializer.save(vendor=vendor)` —
so `Bill.objects.create(**validated_data)` runs without a vendor and raises
IntegrityError (unhandled, HTTP 500): no Bill and no BillLine row is ever
stored by this path. -/
def billListPost (v : Vendor) (date_str : String) (req : CreateBillRequest) :
    Vendor × Except String Bill :=
  let g := generate_bill_number v date_str
  if validCreateBill req then
    (g.2.2, billInsert none (assembledBill v date_str req))
  else (g.2.2, Except.error "validation failed")

/-! ## Theorems -/

/-! ### Sequence generation -/

theorem generate_bill_number_first (v : Vendor) (d : String)
    (h0 : v.last_bill_number = 0) (hpos : 0 < v.bill_starting_number) :
    generate_bill_number v d =
      (normPfx v.bill_pfx ++ "-" ++ d ++ "-" ++ pad4 v.bill_starting_number,
       normPfx v.bill_pfx ++ "-" ++ pad4 v.bill_starting_number,
       { v with last_bill_number := v.bill_starting_number }) := by
  have h1 : v.bill_starting_number - 1 + 1 = v.bill_starting_number := by ring
  simp [generate_bill_number, h0, hpos, h1]

theorem generate_bill_number_next (v : Vendor) (d : String)
    (h : v.last_bill_number ≠ 0) :
    generate_bill_number v d =
      (normPfx v.bill_pfx ++ "-" ++ d ++ "-" ++ pad4 (v.last_bill_number + 1),
       normPfx v.bill_pfx ++ "-" ++ pad4 (v.last_bill_number + 1),
       { v with last_bill_number := v.last_bill_number + 1 }) := by
  simp [generate_bill_number, h]

/-- Claim C5: starting from `last_bill_number = 0` and
`bill_starting_number = s ≥ 1`, the first `generate_bill_number` call issues
the number `s` and the next call issues `s + 1`; any call from a counter at
`m ≥ 1` issues `m + 1`; numbers are formatted
`prefix ++ "-" ++ date ++ "-" ++ pad4 n` (invoice) and
`prefix ++ "-" ++ pad4 n` (bill). -/
theorem claim_C5_sequence_numbering (v : Vendor) (d1 d2 : String) (s : ℤ)
    (hs : 1 ≤ s) (h0 : v.last_bill_number = 0)
    (hstart : v.bill_starting_number = s) :
    (generate_bill_number v d1).2.2.last_bill_number = s ∧
    (generate_bill_number v d1).1
      = normPfx v.bill_pfx ++ "-" ++ d1 ++ "-" ++ pad4 s ∧
    (generate_bill_number v d1).2.1 = normPfx v.bill_pfx ++ "-" ++ pad4 s ∧
    (generate_bill_number (generate_bill_number v d1).2.2 d2).2.2.last_bill_number
      = s + 1 ∧
    (generate_bill_number (generate_bill_number v d1).2.2 d2).1
      = normPfx v.bill_pfx ++ "-" ++ d2 ++ "-" ++ pad4 (s + 1) ∧
    (generate_bill_number (generate_bill_number v d1).2.2 d2).2.1
      = normPfx v.bill_pfx ++ "-" ++ pad4 (s + 1) ∧
    (∀ (w : Vendor) (d : String) (m : ℤ), 1 ≤ m → w.last_bill_number = m →
      (generate_bill_number w d).2.2.last_bill_number = m + 1 ∧
      (generate_bill_number w d).1
        = normPfx w.bill_pfx ++ "-" ++ d ++ "-" ++ pad4 (m + 1)) := by
  have hpos : 0 < v.bill_starting_number := by omega
  have hfirst := generate_bill_number_first v d1 h0 hpos
  have hv1 : (generate_bill_number v d1).2.2
      = { v with last_bill_number := v.bill_starting_number } := by
    rw [hfirst]
  have hs0 : ({ v with last_bill_number := v.bill_starting_number } : Vendor).last_bill_number ≠ 0 := by
    simp [hstart]; omega
  have hsecond := generate_bill_number_next
    { v with last_bill_number := v.bill_starting_number } d2 hs0
  refine ⟨?_, ?_, ?_, ?_, ?_, ?_, ?_⟩
  · rw [hfirst, hstart]
  · rw [hfirst, hstart]
  · rw [hfirst, hstart]
  · rw [hv1, hsecond]; simp [hstart]
  · rw [hv1, hsecond]; simp [hstart]
  · rw [hv1, hsecond]; simp [hstart]
  · intro w d m hm hw
    have hne : w.last_bill_number ≠ 0 := by omega
    have h := generate_bill_number_next w d hne
    rw [h, hw]
    exact ⟨rfl, rfl⟩

/-- Witness for C5: prefix "INV", starting number 50, counter at 0 — the
first invoice number issued ends in 0050 and the second in 0051. -/
theorem claim_C5_sequence_numbering_witness :
    (generate_bill_number ⟨"INV", 50, 0⟩ "2026-01-27").1
      = "INV-2026-01-27-0050" ∧
    (generate_bill_number (generate_bill_number ⟨"INV", 50, 0⟩ "2026-01-27").2.2
        "2026-01-27").1
      = "INV-2026-01-27-0051" := by
  have h := claim_C5_sequence_numbering ⟨"INV", 50, 0⟩ "2026-01-27" "2026-01-27" 50
    (by decide) rfl rfl
  exact ⟨h.2.1.trans (by decide), h.2.2.2.2.1.trans (by decide)⟩

/-! ### Numbering configuration -/

/-- Claim C2 (code bug): the profile PATCH applies a `bill_starting_number`
change no matter how many bills already exist for the vendor — the
serializer never consults the bill table, so no ConfigurationLocked error is
possible; a prefix-only change also succeeds. -/
theorem claim_C2_starting_number_not_locked (billCount : ℕ) (v : Vendor) :
    vendorProfilePatch billCount v ⟨none, some 200⟩
      = PatchResult.ok { v with bill_starting_number := 200 } ∧
    vendorProfilePatch billCount v ⟨some "NEW", none⟩
      = PatchResult.ok { v with bill_pfx := "NEW" } := by
  constructor
  · simp [vendorProfilePatch]
  · simp [vendorProfilePatch]

/-! ### Tax computation -/

/-- Claim C6 (code bug): the resolution order does reach the HSN-default
branch for an item with a truthy HSN code, no explicit HSN rate and no
vendor SAC code — but there the default lookup raises NameError on every
call (see `get_default_gst_from_hn`) instead of returning the static-table
rate (or 0 for an absent code), so `calculate_item_tax` fails, whatever the
table holds. -/
theorem claim_C6_hsn_default_error (table : String → Option SacEntry)
    (sub : ℚ) (code : String) (hcode : code ≠ "") :
    calculate_item_tax table sub (some code) none none none
      = Except.error "NameError: name hsn_code is not defined" := by
  simp [calculate_item_tax, strTruthy, hcode, get_default_gst_from_hn]

/-- Witness for C6: HSN code "2106", subtotal 100, no explicit rates. -/
theorem claim_C6_hsn_default_error_witness :
    ("2106" : String) ≠ "" ∧
    calculate_item_tax (fun _ => none) 100 (some "2106") none none none
      = Except.error "NameError: name hsn_code is not defined" :=
  ⟨by decide, claim_C6_hsn_default_error (fun _ => none) 100 "2106" (by decide)⟩

/-- Claim C7 counterexample: the source rounds the tax with the default
Python Decimal rounding, which is round-half-to-even, not half-up: at
subtotal 0.45 and rate 10% the exact tax 0.045 is stored as 0.04, while the
claimed half-up rounding yields 0.05. -/
theorem claim_C7_counterexample :
    calculate_item_tax (fun _ => none) (45/100) none none (some "996331") (some 10)
      = Except.ok (4/100, 10) ∧
    quantize2HalfUp ((45/100 : ℚ) * 10 / 100) = 5/100 ∧
    ((4 : ℚ)/100) ≠ 5/100 := by
  refine ⟨?_, ?_, ?_⟩
  · have h1 : quantize2 ((45:ℚ)/100 * 10 / 100) = 4/100 := by
      norm_num [quantize2, roundHalfEvenZ, Int.fract]
    simp [calculate_item_tax, strTruthy, h1]
  · norm_num [quantize2HalfUp, roundHalfUpZ]
  · norm_num

/-- Claim C7 amended: `tax_amount = subtotal * rate / 100` rounded to two
decimal places with round-half-to-even rounding, the Python Decimal
default: an exact half cent goes to the even cent, so 33.33 at 18% gives
6.00 but 0.045 gives 0.04. -/
theorem claim_C7_amended_half_even :
    (∀ (s r : ℚ),
      calculate_item_tax (fun _ => none) s none none (some "996331") (some r)
        = Except.ok (quantize2 (s * r / 100), r)) ∧
    (∀ (k : ℤ), roundHalfEvenZ ((k : ℚ) + 1/2) = if k % 2 = 0 then k else k + 1) ∧
    calculate_item_tax (fun _ => none) (3333/100) none none (some "996331") (some 18)
      = Except.ok (6, 18) ∧
    calculate_item_tax (fun _ => none) (45/100) none none (some "996331") (some 10)
      = Except.ok (4/100, 10) := by
  refine ⟨?_, ?_, ?_, ?_⟩
  · intro s r
    simp [calculate_item_tax, strTruthy]
  · intro k
    have hfl : ⌊(k : ℚ) + 1/2⌋ = k := by
      rw [Int.floor_int_add]
      norm_num
    unfold roundHalfEvenZ
    rw [hfl]
    have hr : (k : ℚ) + 1/2 - k = 1/2 := by ring
    rw [hr]
    norm_num
  · have h1 : quantize2 ((3333:ℚ)/100 * 18 / 100) = 6 := by
      norm_num [quantize2, roundHalfEvenZ, Int.fract]
    simp [calculate_item_tax, strTruthy, h1]
  · have h1 : quantize2 ((45:ℚ)/100 * 10 / 100) = 4/100 := by
      norm_num [quantize2, roundHalfEvenZ, Int.fract]
    simp [calculate_item_tax, strTruthy, h1]

/-! ### Sync reconciliation -/

theorem findItem_removeItem (st : List Item) (i : EntityId) :
    findItem (removeItem st i) i = none := by
  rw [findItem, List.find?_eq_none]
  intro x hx
  rw [removeItem, List.mem_filter] at hx
  simpa using hx.2

/-- Claim C1 counterexample: an update whose timestamp equals the stored
`last_updated` (both 100) is applied, not skipped — the stored name changes
from "Tea" to "Coffee" — refuting "older than or **equal** ⇒ no stored field
changes". -/
theorem claim_C1_counterexample :
    processItemOp (fun _ => false) 200
        [⟨1, "Tea", 10, true, [], 100⟩]
        ⟨SyncOpType.update, some 1, ⟨some "Coffee", none, none, []⟩, some 100⟩
      = ([⟨1, "Coffee", 10, true, [], 200⟩],
         Sum.inl (SyncEntry.itemRepr ⟨1, "Coffee", 10, true, [], 200⟩)) ∧
    ("Coffee" : String) ≠ "Tea" := by
  constructor
  · rfl
  · decide

/-- Claim C1 amended: for an existing item and an update carrying a parseable
timestamp `t`, the LWW gate skips the update exactly when the stored
`last_updated` is strictly newer than `t`: then nothing changes and the
current server representation is returned.  When `t ≥ last_updated`
(equality included) the update is applied: payload fields overwrite and
`last_updated` is stamped with the server time. -/
theorem claim_C1_lww_boundary (activeCats : EntityId → Bool) (now : Time)
    (st : List Item) (op : SyncOp) (i : EntityId) (t : Time) (it : Item)
    (hop : op.operation = SyncOpType.update) (hid : op.id = some i)
    (ht : op.timestamp = some t) (hfind : findItem st i = some it)
    (hcats : op.data.category_ids = []) :
    (t < it.last_updated →
      processItemOp activeCats now st op
        = (st, Sum.inl (SyncEntry.itemRepr it))) ∧
    (it.last_updated ≤ t →
      processItemOp activeCats now st op
        = (replaceItem st (applyItemPayload it op.data now),
           Sum.inl (SyncEntry.itemRepr (applyItemPayload it op.data now)))) := by
  constructor
  · intro h
    simp [processItemOp, hop, hid, ht, hfind, h]
  · intro h
    have hns : ¬ (t < it.last_updated) := not_lt.mpr h
    simp [processItemOp, hop, hid, ht, hfind, hns, hcats, applyItemPayload]

/-- Witness for C1 (amended): stored `last_updated` 100 is strictly newer
than the operation timestamp 50, so the update is skipped and the current
item returned. -/
theorem claim_C1_lww_boundary_witness :
    processItemOp (fun _ => false) 200 [⟨1, "Tea", 10, true, [], 100⟩]
        ⟨SyncOpType.update, some 1, ⟨some "Coffee", none, none, []⟩, some 50⟩
      = ([⟨1, "Tea", 10, true, [], 100⟩],
         Sum.inl (SyncEntry.itemRepr ⟨1, "Tea", 10, true, [], 100⟩)) :=
  (claim_C1_lww_boundary (fun _ => false) 200 [⟨1, "Tea", 10, true, [], 100⟩]
    ⟨SyncOpType.update, some 1, ⟨some "Coffee", none, none, []⟩, some 50⟩
    1 50 ⟨1, "Tea", 10, true, [], 100⟩
    rfl rfl rfl rfl rfl).1 (by decide)

/-- Claim C9: a delete whose id is absent for the vendor — including a delete
re-delivered after an earlier delete already removed the entity — appends an
error entry ("Item not found" / "Category not found") rather than a success,
while the remaining operations of the batch are still processed; delete is
therefore not idempotent under re-delivery. -/
theorem claim_C9_delete_missing_errors (activeCats : EntityId → Bool)
    (now : Time) (st : List Item) (i : EntityId) (p : ItemPayload)
    (ts : Option Time) (rest : List SyncOp)
    (habs : findItem st i = none)
    (cst : List Category) (j : EntityId) (q : CategoryPayload)
    (cts : Option Time) (crest : List CatSyncOp)
    (hcabs : findCat cst j = none) :
    itemSyncPost activeCats now st (⟨SyncOpType.delete, some i, p, ts⟩ :: rest)
      = ((itemSyncPost activeCats now st rest).1,
         { synced := (itemSyncPost activeCats now st rest).2.synced,
           results := (itemSyncPost activeCats now st rest).2.results,
           errors := SyncError.notFound i
             :: (itemSyncPost activeCats now st rest).2.errors }) ∧
    categorySyncPost now cst (⟨SyncOpType.delete, some j, q, cts⟩ :: crest)
      = ((categorySyncPost now cst crest).1,
         { synced := (categorySyncPost now cst crest).2.synced,
           results := (categorySyncPost now cst crest).2.results,
           errors := SyncError.notFound j
             :: (categorySyncPost now cst crest).2.errors }) ∧
    (∀ (st0 : List Item) (it0 : Item), findItem st0 i = some it0 →
      itemSyncPost activeCats now st0
          [⟨SyncOpType.delete, some i, p, ts⟩, ⟨SyncOpType.delete, some i, p, ts⟩]
        = (removeItem st0 i,
           { synced := 1, results := [SyncEntry.deleteAck i],
             errors := [SyncError.notFound i] })) := by
  refine ⟨?_, ?_, ?_⟩
  · simp [itemSyncPost, processItemOps, processItemOp, habs]
  · simp [categorySyncPost, processCatOps, processCatOp, hcabs]
  · intro st0 it0 h
    simp [itemSyncPost, processItemOps, processItemOp, h, findItem_removeItem]

/-- Witness for C9: deleting absent id 2 yields only the error entry; a
batch deleting existing id 1 twice acknowledges the first delete and reports
"Item not found" for the re-delivered one. -/
theorem claim_C9_delete_missing_errors_witness :
    itemSyncPost (fun _ => false) 200 [⟨1, "Tea", 10, true, [], 100⟩]
        [⟨SyncOpType.delete, some 2, ⟨none, none, none, []⟩, none⟩]
      = ([⟨1, "Tea", 10, true, [], 100⟩],
         { synced := 0, results := [], errors := [SyncError.notFound 2] }) ∧
    itemSyncPost (fun _ => false) 200 [⟨1, "Tea", 10, true, [], 100⟩]
        [⟨SyncOpType.delete, some 1, ⟨none, none, none, []⟩, none⟩,
         ⟨SyncOpType.delete, some 1, ⟨none, none, none, []⟩, none⟩]
      = ([], { synced := 1, results := [SyncEntry.deleteAck 1],
               errors := [SyncError.notFound 1] }) := by
  have h1 := claim_C9_delete_missing_errors (fun _ => false) 200
    [⟨1, "Tea", 10, true, [], 100⟩] 2 ⟨none, none, none, []⟩ none [] rfl
    [] 5 ⟨none, none⟩ none [] rfl
  have h2 := claim_C9_delete_missing_errors (fun _ => false) 200
    [] 1 ⟨none, none, none, []⟩ none [] rfl
    [] 5 ⟨none, none⟩ none [] rfl
  exact ⟨h1.1, h2.2.2 [⟨1, "Tea", 10, true, [], 100⟩] ⟨1, "Tea", 10, true, [], 100⟩ rfl⟩

/-- Claim C10: an update skipped as stale is appended to the success list
and counted in `synced` exactly like an applied update — only the returned
entity body reveals the skip — and `synced` always equals the length of the
success list. -/
theorem claim_C10_stale_counted_synced (activeCats : EntityId → Bool)
    (now : Time) (st : List Item) (op : SyncOp) (i : EntityId) (t : Time)
    (it : Item) (rest : List SyncOp)
    (hop : op.operation = SyncOpType.update) (hid : op.id = some i)
    (ht : op.timestamp = some t) (hfind : findItem st i = some it)
    (hstale : t < it.last_updated) :
    itemSyncPost activeCats now st (op :: rest)
      = ((itemSyncPost activeCats now st rest).1,
         { synced := (itemSyncPost activeCats now st rest).2.synced + 1,
           results := SyncEntry.itemRepr it
             :: (itemSyncPost activeCats now st rest).2.results,
           errors := (itemSyncPost activeCats now st rest).2.errors }) ∧
    (∀ (st0 : List Item) (ops : List SyncOp),
      (itemSyncPost activeCats now st0 ops).2.synced
        = (itemSyncPost activeCats now st0 ops).2.results.length) := by
  constructor
  · simp [itemSyncPost, processItemOps, processItemOp, hop, hid, ht, hfind, hstale]
  · intro st0 ops
    simp [itemSyncPost]

/-- Witness for C10: a stale update (timestamp 50 against stored 100) counts
as one synced success with the unchanged item as its body. -/
theorem claim_C10_stale_counted_synced_witness :
    itemSyncPost (fun _ => false) 200 [⟨1, "Tea", 10, true, [], 100⟩]
        [⟨SyncOpType.update, some 1, ⟨some "Coffee", none, none, []⟩, some 50⟩]
      = ([⟨1, "Tea", 10, true, [], 100⟩],
         { synced := 1,
           results := [SyncEntry.itemRepr ⟨1, "Tea", 10, true, [], 100⟩],
           errors := [] }) :=
  (claim_C10_stale_counted_synced (fun _ => false) 200
    [⟨1, "Tea", 10, true, [], 100⟩]
    ⟨SyncOpType.update, some 1, ⟨some "Coffee", none, none, []⟩, some 50⟩
    1 50 ⟨1, "Tea", 10, true, [], 100⟩ []
    rfl rfl rfl rfl (by decide)).1

/-! ### Bill ingest and bill creation -/

/-- Claim C4: ingesting a bill whose `(vendor, invoice_number)` already
exists creates no Bill and no BillLine rows, returns the existing bill, and
is reported as a success; one ingest followed by a second ingest of the same
payload is a no-op, and a single-payload batch is counted as synced with no
errors. -/
theorem claim_C4_ingest_idempotent (st : List Bill) (p : SyncBillPayload)
    (inv : String) (b : Bill)
    (hinv : p.invoice_number = some inv) (hne : inv ≠ "")
    (hex : findBill st inv = some b) :
    ingestBill st p = (st, IngestOutcome.ok b) ∧
    (∀ (st0 : List Bill) (q : SyncBillPayload),
      ingestBill (ingestBill st0 q).1 q = ingestBill st0 q) ∧
    (∀ (st0 : List Bill),
      (salesSyncPost st0 [p]).2.1.length = 1 ∧ (salesSyncPost st0 [p]).2.2 = []) := by
  refine ⟨?_, ?_, ?_⟩
  · simp [ingestBill, hinv, hne, hex]
  · intro st0 q
    rcases hq : q.invoice_number with _ | inv'
    · simp [ingestBill, hq]
    · by_cases hq0 : inv' = ""
      · simp [ingestBill, hq, hq0]
      · rcases hf : findBill st0 inv' with _ | b0
        · have hfind2 : findBill (st0 ++ [mkSyncBill inv' q]) inv'
              = some (mkSyncBill inv' q) := by
            rw [findBill] at hf ⊢
            rw [List.find?_append, hf]
            simp [mkSyncBill]
          simp [ingestBill, hq, hq0, hf, hfind2]
        · simp [ingestBill, hq, hq0, hf]
  · intro st0
    rcases hf : findBill st0 inv with _ | b0
    · simp [salesSyncPost, ingestBill, hinv, hne, hf]
    · simp [salesSyncPost, ingestBill, hinv, hne, hf]

/-- Witness for C4: a state already holding invoice "INV-1"; re-ingesting a
payload with that invoice number returns the stored bill unchanged. -/
theorem claim_C4_ingest_idempotent_witness :
    ingestBill [⟨"INV-1", "B", 0, 0, 0, 0, 0, 0, []⟩]
        ⟨some "INV-1", none, none, none, none, none, none, none, []⟩
      = ([⟨"INV-1", "B", 0, 0, 0, 0, 0, 0, []⟩],
         IngestOutcome.ok ⟨"INV-1", "B", 0, 0, 0, 0, 0, 0, []⟩) :=
  (claim_C4_ingest_idempotent [⟨"INV-1", "B", 0, 0, 0, 0, 0, 0, []⟩]
    ⟨some "INV-1", none, none, none, none, none, none, none, []⟩
    "INV-1" ⟨"INV-1", "B", 0, 0, 0, 0, 0, 0, []⟩
    rfl (by decide) rfl).1

/-- Claim C3 counterexample: at a concrete validation-passing request,
POST /bills/ raises IntegrityError (the vendor-less insert) and no Bill is
created at all, so no "tax amounts stored on the created Bill" exist; the
row that reached the failed insert carried the client figures (line tax 999,
total_tax 7) verbatim, not the TaxEngine value 18 for the line. -/
theorem claim_C3_counterexample :
    (billListPost ⟨"INV", 1, 0⟩ "2026-01-27"
        ⟨none, some 100, some 118, some 7, some 0, some 0, some 0,
         [⟨"Pizza", 100, 100, 1, 100, some 18, some 999⟩]⟩).2
      = Except.error "IntegrityError: NOT NULL constraint failed: sales_bill.vendor_id" ∧
    (assembledBill ⟨"INV", 1, 0⟩ "2026-01-27"
        ⟨none, some 100, some 118, some 7, some 0, some 0, some 0,
         [⟨"Pizza", 100, 100, 1, 100, some 18, some 999⟩]⟩).total_tax = 7 ∧
    (assembledBill ⟨"INV", 1, 0⟩ "2026-01-27"
        ⟨none, some 100, some 118, some 7, some 0, some 0, some 0,
         [⟨"Pizza", 100, 100, 1, 100, some 18, some 999⟩]⟩).lines.map
        BillLine.item_gst_amount = [999] ∧
    calculate_item_tax (fun _ => none) 100 (some "2106") (some 18) none none
      = Except.ok (18, 18) ∧
    ((999 : ℚ)) ≠ 18 ∧ ((7 : ℚ)) ≠ 999 := by
  refine ⟨?_, ?_, ?_, ?_, ?_, ?_⟩
  · rfl
  · rfl
  · rfl
  · have h1 : quantize2 (18 : ℚ) = 18 := by
      norm_num [quantize2, roundHalfEvenZ, Int.fract]
    simp [calculate_item_tax, strTruthy, h1]
  · norm_num
  · norm_num

/-- Claim C3 amended: POST /bills/ never creates a Bill: a request that
fails the serializer bounds is rejected with the validation response, and
every validation-passing request raises IntegrityError at the vendor-less
insert before any Bill or BillLine row is stored; the TaxEngine is not
invoked on this path, and the row handed to the failed insert carries the
tax figures of the request verbatim (absent fields as 0). -/
theorem claim_C3_no_bill_created (v : Vendor) (d : String)
    (req : CreateBillRequest) :
    (validCreateBill req = true →
      (billListPost v d req).2
        = Except.error "IntegrityError: NOT NULL constraint failed: sales_bill.vendor_id" ∧
      (assembledBill v d req).total_tax = req.total_tax.getD 0 ∧
      (assembledBill v d req).cgst_amount = req.cgst.getD 0 ∧
      (assembledBill v d req).sgst_amount = req.sgst.getD 0 ∧
      (assembledBill v d req).igst_amount = req.igst.getD 0 ∧
      (assembledBill v d req).lines.map BillLine.item_gst_amount
        = req.items_data.map (fun r => r.item_gst_amount.getD 0)) ∧
    (∀ b : Bill, (billListPost v d req).2 ≠ Except.ok b) := by
  constructor
  · intro hv
    refine ⟨?_, rfl, rfl, rfl, rfl, ?_⟩
    · simp [billListPost, hv, billInsert]
    · simp [assembledBill, mkCreateLine]
  · intro b
    by_cases hv : validCreateBill req
    · simp [billListPost, hv, billInsert]
    · simp [billListPost, hv]

/-- Witness for C3 (amended): a validation-passing request with total_tax 5
and one line with tax 9 ends in the IntegrityError, and the row that
reached the insert carried exactly those figures. -/
theorem claim_C3_no_bill_created_witness :
    (billListPost ⟨"INV", 1, 0⟩ "2026-01-27"
        ⟨none, none, none, some 5, none, none, none,
         [⟨"Tea", 10, 10, 1, 10, none, some 9⟩]⟩).2
      = Except.error "IntegrityError: NOT NULL constraint failed: sales_bill.vendor_id" ∧
    (assembledBill ⟨"INV", 1, 0⟩ "2026-01-27"
        ⟨none, none, none, some 5, none, none, none,
         [⟨"Tea", 10, 10, 1, 10, none, some 9⟩]⟩).total_tax
      = (some (5 : ℚ)).getD 0 ∧
    (assembledBill ⟨"INV", 1, 0⟩ "2026-01-27"
        ⟨none, none, none, some 5, none, none, none,
         [⟨"Tea", 10, 10, 1, 10, none, some 9⟩]⟩).lines.map
        BillLine.item_gst_amount
      = [⟨"Tea", 10, 10, 1, 10, none, some 9⟩].map
          (fun (r : CreateLineRequest) => r.item_gst_amount.getD 0) := by
  have h := (claim_C3_no_bill_created ⟨"INV", 1, 0⟩ "2026-01-27"
    ⟨none, none, none, some 5, none, none, none,
     [⟨"Tea", 10, 10, 1, 10, none, some 9⟩]⟩).1 (by decide)
  exact ⟨h.1, h.2.1, h.2.2.2.2.2⟩

/-- Claim C8 counterexample: a POST /bills/ request supplying invoice_number
"CLIENT-123" is not rejected with a validation error — the outcome is the
IntegrityError every validation-passing request gets, identical to the
outcome of the same request without the invoice_number. -/
theorem claim_C8_counterexample :
    (billListPost ⟨"INV", 1, 0⟩ "2026-01-27"
        ⟨some "CLIENT-123", none, none, none, none, none, none, []⟩).2
      = Except.error "IntegrityError: NOT NULL constraint failed: sales_bill.vendor_id" ∧
    (billListPost ⟨"INV", 1, 0⟩ "2026-01-27"
        ⟨some "CLIENT-123", none, none, none, none, none, none, []⟩).2
      ≠ Except.error "validation failed" ∧
    billListPost ⟨"INV", 1, 0⟩ "2026-01-27"
        ⟨some "CLIENT-123", none, none, none, none, none, none, []⟩
      = billListPost ⟨"INV", 1, 0⟩ "2026-01-27"
          ⟨none, none, none, none, none, none, none, []⟩ := by
  refine ⟨rfl, ?_, rfl⟩
  intro h
  exact absurd (Except.error.inj h) (by decide)

/-- Claim C8 amended: a client-supplied invoice_number on POST /bills/ is
silently ignored, not rejected: the outcome is identical whatever that field
holds (the validation response for out-of-bounds bodies, otherwise the
IntegrityError of the vendor-less insert — never a rejection caused by the
invoice_number); the only invoice and bill numbers produced on this path are
the ones issued by the sequence generator, embedded in the row handed to the
insert, and no bill is ever created. -/
theorem claim_C8_invoice_ignored (v : Vendor) (d : String)
    (req : CreateBillRequest) (x : Option String) :
    billListPost v d { req with invoice_number := x } = billListPost v d req ∧
    (assembledBill v d req).invoice_number = (generate_bill_number v d).1 ∧
    (assembledBill v d req).bill_number = (generate_bill_number v d).2.1 ∧
    (∀ b : Bill, (billListPost v d req).2 ≠ Except.ok b) := by
  refine ⟨rfl, rfl, rfl, ?_⟩
  intro b
  by_cases hv : validCreateBill req
  · simp [billListPost, hv, billInsert]
  · simp [billListPost, hv]

/-- Witness for C8 (amended): with a client-supplied "CLIENT-123" the
outcome equals the one for the same request without it, and the assembled
row carries the generated invoice number. -/
theorem claim_C8_invoice_ignored_witness :
    billListPost ⟨"INV", 1, 0⟩ "2026-01-27"
        ⟨some "CLIENT-123", none, none, none, none, none, none, []⟩
      = billListPost ⟨"INV", 1, 0⟩ "2026-01-27"
          ⟨none, none, none, none, none, none, none, []⟩ ∧
    (assembledBill ⟨"INV", 1, 0⟩ "2026-01-27"
        ⟨none, none, none, none, none, none, none, []⟩).invoice_number
      = (generate_bill_number ⟨"INV", 1, 0⟩ "2026-01-27").1 := by
  have h := claim_C8_invoice_ignored ⟨"INV", 1, 0⟩ "2026-01-27"
    ⟨none, none, none, none, none, none, none, []⟩ (some "CLIENT-123")
  exact ⟨h.1, h.2.1⟩

end PosBackend
